import Mathlib

/-!
# Verification of the expenserule categorization and receipt-ingestion core

Shallow embedding of `src/expenserule` (Python) into Lean 4:

* `categorization.py` — the three-tier classification resolver
  (`suggest_category`, `_lookup_table`, `_llm_suggest`, `_normalize`);
* `database.py` — the correction-memory helpers
  (`get_correction`, `upsert_correction`), with the SQLite table
  `correction_memory` modelled as an association list keyed by merchant;
* `llm.py` — image normalization (`_preprocess_image`, `preprocess_file`)
  and receipt-field extraction (`parse_receipt`);
* `routers/upload.py` — the upload/ingestion endpoint (`parse_upload`),
  modelled as a pure function that also emits the trace of filesystem
  events it performs.

External effects (the SQLite engine, the OpenAI network calls, Pillow /
pdf2image decoding, the filesystem) are modelled as explicit parameters:
each external call's outcome is an input of the embedded function, either
a value or a raised Python exception (`PyErr`).  Static data from
`expenserule/categories.py` (which is imported by the source but whose
file is not part of the sources given) is a parameter of the embedding;
theorems quantify over it, and concrete fixtures used by witnesses are
marked as modelled from the spec.
-/

/-- A raised Python exception: its class name and message. -/
structure PyErr where
  cls : String
  msg : String
deriving Repr, DecidableEq

/-- `leadsChars needle hay`: `needle` is an initial segment of `hay`. -/
def leadsChars : List Char → List Char → Bool
  | [], _ => true
  | _ :: _, [] => false
  | a :: as, b :: bs => a == b && leadsChars as bs

/-- `occursChars needle hay`: `needle` occurs contiguously in `hay`. -/
def occursChars (needle : List Char) : List Char → Bool
  | [] => leadsChars needle []
  | b :: bs => leadsChars needle (b :: bs) || occursChars needle bs

/-- Python's `needle in hay` on strings: contiguous-substring test. -/
def strContains (hay needle : String) : Bool :=
  occursChars needle.data hay.data

/-- Python `str.lower()` (ASCII case mapping, which is all the pipeline
meets). -/
def pyLower (s : String) : String :=
  ⟨s.data.map Char.toLower⟩

/-- Drop leading whitespace characters. -/
def trimLeadChars : List Char → List Char
  | [] => []
  | c :: cs => if c.isWhitespace then trimLeadChars cs else c :: cs

/-- Python `str.strip()`: remove leading and trailing whitespace. -/
def pyStrip (s : String) : String :=
  ⟨(trimLeadChars ((trimLeadChars s.data).reverse)).reverse⟩

namespace Categorization

/-- The dict returned by `suggest_category`
(`{"category": ..., "schedule_c_line": ..., "source": ...}`).  The source
tag is the literal string the code uses: `"correction_memory"`, `"lookup"`
or `"llm"` (the spec's enum `correction | lookup | remote` names the same
three tags). -/
structure CatResult where
  category : String
  schedule_c_line : String
  source : String
deriving Repr, DecidableEq

/-- The environment `suggest_category` runs in: the `correction_memory`
table rows, the static tables from `expenserule/categories.py`
(`MERCHANT_LOOKUP` and `CATEGORY_LINE` as insertion-ordered association
lists, `_CATEGORY_NAMES` as a list), and the outcome of the remote
text-completion call (`response.choices[0].message.content`, or a raised
exception). -/
structure ClassEnv where
  corrections : List (String × String)
  merchantLookup : List (String × String)
  categoryLine : List (String × String)
  categoryNames : List String
  remote : Except PyErr String
deriving Repr

/-- `database.get_correction`: `SELECT category FROM correction_memory
WHERE merchant = ?` with parameter `merchant.lower()`.  Note: the key is
lowercased but NOT trimmed. -/
def getCorrection (corrections : List (String × String)) (merchant : String) :
    Option String :=
  (corrections.find? (fun p => p.1 == pyLower merchant)).map (·.2)

/-- `database.upsert_correction`: `INSERT ... ON CONFLICT(merchant) DO
UPDATE SET category = excluded.category` with key `merchant.lower()`. -/
def upsertCorrection (corrections : List (String × String))
    (merchant category : String) : List (String × String) :=
  let key := pyLower merchant
  if corrections.any (fun p => p.1 == key) then
    corrections.map (fun p => if p.1 == key then (p.1, category) else p)
  else
    corrections ++ [(key, category)]

/-- `categorization._normalize`: `merchant.strip().lower()`. -/
def normalizeMerchant (merchant : String) : String :=
  pyLower (pyStrip merchant)

/-- Python dict lookup `d.get(k)` on an insertion-ordered association
list (keys are unique in a dict, so first match is the match). -/
def dictFind (d : List (String × String)) (key : String) : Option String :=
  (d.find? (fun p => p.1 == key)).map (·.2)

/-- `categorization._lookup_table`: exact match of the normalized merchant
against `MERCHANT_LOOKUP`, then a substring scan in insertion order
returning the first lookup key contained in the normalized merchant. -/
def lookupTable (merchantLookup : List (String × String)) (merchant : String) :
    Option String :=
  let key := normalizeMerchant merchant
  match dictFind merchantLookup key with
  | some category => some category
  | none =>
      (merchantLookup.find? (fun p => strContains key p.1)).map (·.2)

/-- `categorization._llm_suggest` from the point where the remote response
is in hand: strip the first choice's content and validate it by exact
membership in `_CATEGORY_NAMES`, falling back to `"Other Expenses"`
otherwise.  The remote call itself is the `remote` parameter; the source
has no `try`/`except`, so a raised exception propagates (`Except.error`). -/
def llmSuggest (categoryNames : List String) (remote : Except PyErr String) :
    Except PyErr String :=
  match remote with
  | .error e => .error e
  | .ok content =>
      let suggestion := pyStrip content
      if categoryNames.contains suggestion then .ok suggestion
      else .ok "Other Expenses"

/-- Tier 3 of `suggest_category` (`# 3. LLM fallback`): the dict built
from `_llm_suggest`'s answer, with
`CATEGORY_LINE.get(llm_category, "27a")` for the line. -/
def tier3Resolve (env : ClassEnv) : Except PyErr CatResult :=
  match llmSuggest env.categoryNames env.remote with
  | .error e => .error e
  | .ok llmCategory =>
      .ok ⟨llmCategory, (dictFind env.categoryLine llmCategory).getD "27a", "llm"⟩

/-- Tier 2 of `suggest_category` (`# 2. Built-in lookup table`), falling
through to tier 3.  `if from_table:` is a Python truthiness test, so an
empty-string category also falls through; the line access
`CATEGORY_LINE[from_table]` is unguarded and raises `KeyError` when the
looked-up category is missing from `CATEGORY_LINE`. -/
def tier2Resolve (env : ClassEnv) (merchant : String) :
    Except PyErr CatResult :=
  match lookupTable env.merchantLookup merchant with
  | none => tier3Resolve env
  | some fromTable =>
      if fromTable = "" then tier3Resolve env
      else
        match dictFind env.categoryLine fromTable with
        | some line => .ok ⟨fromTable, line, "lookup"⟩
        | none => .error ⟨"KeyError", fromTable⟩

/-- `categorization.suggest_category`: the three-tier resolver.  The
source is one function of sequential early-returns; it is embedded as
tier 1 (`# 1. Correction memory`, with the truthiness test
`if remembered and remembered in CATEGORY_LINE:`) chaining to
`tier2Resolve` and `tier3Resolve` above. -/
def suggestCategory (env : ClassEnv) (merchant : String) :
    Except PyErr CatResult :=
  match getCorrection env.corrections merchant with
  | none => tier2Resolve env merchant
  | some remembered =>
      if remembered = "" then tier2Resolve env merchant
      else
        match dictFind env.categoryLine remembered with
        | some line => .ok ⟨remembered, line, "correction_memory"⟩
        | none => tier2Resolve env merchant

/-- Tier 1 produces no result for this merchant: either no correction row
matches the lowercased merchant, or the remembered category is empty or
absent from `CATEGORY_LINE`. -/
def tier1Misses (env : ClassEnv) (merchant : String) : Bool :=
  match getCorrection env.corrections merchant with
  | none => true
  | some remembered =>
      remembered == "" || (dictFind env.categoryLine remembered).isNone

/-- Tier 2 produces no result for this merchant: the lookup table yields
nothing, or yields the (falsy) empty string. -/
def tier2Misses (env : ClassEnv) (merchant : String) : Bool :=
  match lookupTable env.merchantLookup merchant with
  | none => true
  | some fromTable => fromTable == ""

end Categorization

namespace Llm

/-- A parsed JSON value, as produced by Python's `json.loads`.  Numbers
are modelled as exact rationals (JSON decimal literals are exact;
binary-float rounding of `json.loads` is below the granularity of any
claim here). -/
inductive Json where
  | null
  | bool (b : Bool)
  | num (q : Rat)
  | str (s : String)
  | arr (elems : List Json)
  | obj (fields : List (String × Json))

/-- Python dict `d.get(k)` on the fields of a JSON object. -/
def jsonGet (fields : List (String × Json)) (key : String) : Option Json :=
  (fields.find? (fun p => p.1 == key)).map (·.2)

/-- Python truthiness of a JSON-decoded value (`None`, `False`, `0`, `""`,
`[]`, `{}` are falsy). -/
def truthy : Json → Bool
  | .null => false
  | .bool b => b
  | .num q => q != 0
  | .str s => s != ""
  | .arr elems => !elems.isEmpty
  | .obj fields => !fields.isEmpty

/-- Python `str(...)` applied to a JSON-decoded value.  The `str` case is
exact (identity); the renderings of the other cases model CPython's
(`None`/`True`/`False`, `repr` for containers abbreviated) — no claim
exercises them, since `parse_receipt` reaches this call only after the
`or ""` truthiness guard and receipts carry string merchants. -/
def pyStr : Json → String
  | .null => "None"
  | .bool true => "True"
  | .bool false => "False"
  | .num q => toString q
  | .str s => s
  | .arr _ => "[...]"
  | .obj _ => "{...}"

/-- Value of a single decimal digit, `none` for a non-digit. -/
def digitVal (c : Char) : Option Nat :=
  if c.isDigit then some (c.toNat - '0'.toNat) else none

/-- Value of a nonempty run of decimal digits, `none` if empty or if any
char is not a digit. -/
def digitsVal : List Char → Option Nat
  | [] => none
  | [c] => digitVal c
  | c :: cs =>
      match digitVal c, digitsVal cs with
      | some hd, some tl => some (hd * 10 ^ cs.length + tl)
      | _, _ => none

/-- Split a character list on a separator character (groups between
occurrences, like Python `s.split(sep)`). -/
def splitOnChar (sep : Char) : List Char → List (List Char)
  | [] => [[]]
  | c :: cs =>
      if c = sep then [] :: splitOnChar sep cs
      else
        match splitOnChar sep cs with
        | [] => [[c]]
        | grp :: grps => (c :: grp) :: grps

/-- Python `float(s)` on a string, restricted to plain decimal numerals
(optional sign, digits, optional fractional part, surrounding whitespace)
— the forms the extraction pipeline can meet; exotic forms (`inf`, `nan`,
exponents, underscores) are out of the model.  `none` = `ValueError`. -/
def parseDecimalString (s : String) : Option Rat :=
  let t := (pyStrip s).data
  let bodyOf : List Char → Bool × List Char := fun cs =>
    match cs with
    | '-' :: rest => (true, rest)
    | '+' :: rest => (false, rest)
    | _ => (false, cs)
  let neg := (bodyOf t).1
  let body := (bodyOf t).2
  let signed : Rat → Rat := fun q => if neg then -q else q
  match splitOnChar '.' body with
  | [intPart] => (digitsVal intPart).map (fun n => signed n)
  | [intPart, fracPart] =>
      match intPart, fracPart with
      | [], [] => none
      | [], fs => (digitsVal fs).map (fun f => signed ((f : Rat) / 10 ^ fs.length))
      | is, [] => (digitsVal is).map (fun n => signed n)
      | is, fs =>
          match digitsVal is, digitsVal fs with
          | some n, some f => some (signed ((n : Rat) + (f : Rat) / 10 ^ fs.length))
          | _, _ => none
  | _ => none

/-- Python `float(v)` applied to a JSON-decoded value: numbers pass
through, booleans coerce to 0/1, numeric strings parse (`ValueError`
otherwise), and `None`/lists/dicts raise `TypeError`. -/
def pyFloat : Json → Except PyErr Rat
  | .num q => .ok q
  | .bool b => .ok (if b then 1 else 0)
  | .str s =>
      match parseDecimalString s with
      | some q => .ok q
      | none => .error ⟨"ValueError", "could not convert string to float"⟩
  | .null => .error ⟨"TypeError", "float() argument must not be None"⟩
  | .arr _ => .error ⟨"TypeError", "float() argument must not be a list"⟩
  | .obj _ => .error ⟨"TypeError", "float() argument must not be a dict"⟩

/-- The dict `parse_receipt` returns: `merchant` (always a string), `date`
(the JSON value when truthy, else `None`), `amount` (a number or `None`). -/
structure ReceiptFields where
  merchant : String
  date : Option Json
  amount : Option Rat

/-- `v.isNull`: `v` is the JSON `null` (Python `None`). -/
def Json.isNull : Json → Bool
  | .null => true
  | _ => false

/-- `str(parsed.get("merchant") or "").strip()` from `parse_receipt`
(`x or ""` yields `""` when `x` is absent or falsy). -/
def merchantField (fields : List (String × Json)) : String :=
  pyStrip (pyStr (match jsonGet fields "merchant" with
                  | some v => if truthy v then v else Json.str ""
                  | none => Json.str ""))

/-- `parsed.get("date") or None` from `parse_receipt`. -/
def dateField (fields : List (String × Json)) : Option Json :=
  match jsonGet fields "date" with
  | some v => if truthy v then some v else none
  | none => none

/-- `llm.parse_receipt` from the point where the remote response text has
been fence-stripped and handed to `json.loads` — the network call, the
markdown-fence stripping and the JSON grammar are abstracted into the
parameter: `none` is a `json.loads` failure, `some j` its parsed value.
Mirrors the final dict literal of the source: `merchantField`,
`dateField`, and
`amount = float(parsed["amount"]) if parsed.get("amount") is not None
else None`.  A non-object JSON value makes `parsed.get` raise
`AttributeError`, as in Python. -/
def parseReceiptFromJson (parsed? : Option Json) : Except PyErr ReceiptFields :=
  match parsed? with
  | none => .error ⟨"JSONDecodeError", "Expecting value"⟩
  | some (Json.obj fields) =>
      match jsonGet fields "amount" with
      | none => .ok ⟨merchantField fields, dateField fields, none⟩
      | some Json.null => .ok ⟨merchantField fields, dateField fields, none⟩
      | some v =>
          match pyFloat v with
          | .ok q => .ok ⟨merchantField fields, dateField fields, some q⟩
          | .error e => .error e
  | some _ => .error ⟨"AttributeError", "object has no attribute get"⟩

/-- A decoded Pillow image, reduced to what the normalization stage
observes: pixel dimensions, whether the EXIF orientation tag mandates a
transpose that swaps width and height (orientations 5–8; the dims-
preserving flips/rotations are observationally the identity here), and
the color mode. -/
structure Img where
  width : Nat
  height : Nat
  exifSwap : Bool
  mode : String
deriving Repr, DecidableEq

/-- `llm._apply_exif_orientation` / `ImageOps.exif_transpose`: realize the
EXIF orientation into the pixel buffer (swapping dimensions when the tag
says so) and drop the tag. -/
def applyExifOrientation (img : Img) : Img :=
  if img.exifSwap then ⟨img.height, img.width, false, img.mode⟩ else img

/-- `MAX_IMAGE_DIM` from `llm.py`. -/
def MAX_IMAGE_DIM : Nat := 2048

/-- `llm._preprocess_image`: EXIF orientation, convert to RGB, and when
the longest side exceeds `MAX_IMAGE_DIM`, resize to
`(int(w * scale), int(h * scale))` with `scale = MAX_IMAGE_DIM / longest`.
The float product-and-truncate is modelled by exact arithmetic
`w * MAX_IMAGE_DIM / longest` (Nat floor division). -/
def preprocessImage (img : Img) : Img :=
  let oriented := applyExifOrientation img
  let rgb : Img := ⟨oriented.width, oriented.height, oriented.exifSwap, "RGB"⟩
  let longest := max rgb.width rgb.height
  if MAX_IMAGE_DIM < longest then
    ⟨rgb.width * MAX_IMAGE_DIM / longest, rgb.height * MAX_IMAGE_DIM / longest,
      rgb.exifSwap, rgb.mode⟩
  else rgb

/-- `llm.preprocess_file`: branch on the declared content type; for PDFs
rasterize the first page via `pdf2image.convert_from_bytes` (its outcome —
a page list or a raised exception — is the `pdfPages` parameter) and raise
`ValueError("PDF produced no pages")` on an empty page list; otherwise
decode via `Image.open` (outcome = `imageOpen` parameter).  The JPEG
re-encode at quality 90 is abstracted: the returned value is the processed
image that the JPEG bytes encode.  The source has no `try`/`except`, so
every decode failure propagates unchanged. -/
def preprocessFile (contentType : String)
    (pdfPages : Except PyErr (List Img)) (imageOpen : Except PyErr Img) :
    Except PyErr Img :=
  if contentType = "application/pdf" then
    match pdfPages with
    | .error e => .error e
    | .ok [] => .error ⟨"ValueError", "PDF produced no pages"⟩
    | .ok (page :: _) => .ok (preprocessImage page)
  else
    match imageOpen with
    | .error e => .error e
    | .ok img => .ok (preprocessImage img)

end Llm

namespace Upload

/-- A filesystem action performed by the upload endpoint, in program
order (`stored_path.write_bytes`, the attempt to run `preprocess_file`,
`stored_path.unlink`). -/
inductive FsEvent where
  | writeFile (path : String) (data : List Nat)
  | preprocessAttempt
  | unlinkFile (path : String)
deriving Repr, DecidableEq

/-- The JSON body `parse_upload` returns on success. -/
structure UploadResponse where
  upload_id : String
  merchant : String
  date : Option Llm.Json
  amount : Option Rat
  category : String
  schedule_c_line : String
  category_source : String

/-- How `parse_upload` fails: an `HTTPException` it raises deliberately
(status code; the human-readable detail strings are abstracted), or an
exception it never catches (from `suggest_category`), which the framework
surfaces as an internal server error. -/
inductive UploadFailure where
  | http (status : Nat)
  | uncaught (e : PyErr)

/-- The `ext_map` dict of `parse_upload` (keyed by the already-validated
content type). -/
def extFor (contentType : String) : String :=
  if contentType = "image/jpeg" then ".jpg"
  else if contentType = "image/png" then ".png"
  else ".pdf"

/-- `routers/upload.py parse_upload`, as a pure function from the
request plus the outcomes of its effectful collaborators to the trace of
filesystem events it performs and its response.  `pre` is the outcome of
`preprocess_file(raw_bytes, content_type)`, `extract` the outcome of
`parse_receipt(image_bytes)`, `env` the environment of
`suggest_category`.  `uploadId` stands for `uuid.uuid4().hex`; the stored
path is `UPLOADS_DIR/f"{upload_id}{ext}"`, modelled as the file name.
Mirrors the source order: content-type check (415), size check (413),
write original bytes, preprocess (on failure: unlink the stored file and
raise 422), extract (on failure: 502), categorize, respond. -/
def parseUpload (contentType : String) (raw : List Nat) (uploadId : String)
    (pre : Except PyErr (List Nat)) (extract : Except PyErr Llm.ReceiptFields)
    (env : Categorization.ClassEnv) :
    List FsEvent × Except UploadFailure UploadResponse :=
  if contentType ≠ "image/jpeg" ∧ contentType ≠ "image/png" ∧
      contentType ≠ "application/pdf" then
    ([], .error (.http 415))
  else if 20 * 1024 * 1024 < raw.length then
    ([], .error (.http 413))
  else
    let path := uploadId ++ extFor contentType
    match pre with
    | .error _ =>
        ([.writeFile path raw, .preprocessAttempt, .unlinkFile path],
          .error (.http 422))
    | .ok _ =>
        match extract with
        | .error _ =>
            ([.writeFile path raw, .preprocessAttempt], .error (.http 502))
        | .ok fields =>
            match Categorization.suggestCategory env fields.merchant with
            | .error e =>
                ([.writeFile path raw, .preprocessAttempt], .error (.uncaught e))
            | .ok cat =>
                ([.writeFile path raw, .preprocessAttempt],
                  .ok ⟨uploadId, fields.merchant, fields.date, fields.amount,
                       cat.category, cat.schedule_c_line, cat.source⟩)

/-- Replay a trace of filesystem events over a store of files
(path → contents association list): `write_bytes` overwrites,
`unlink(missing_ok=True)` removes if present. -/
def applyFsEvents (store : List (String × List Nat)) :
    List FsEvent → List (String × List Nat)
  | [] => store
  | .writeFile p d :: rest =>
      applyFsEvents ((store.filter (fun q => q.1 ≠ p)) ++ [(p, d)]) rest
  | .preprocessAttempt :: rest => applyFsEvents store rest
  | .unlinkFile p :: rest =>
      applyFsEvents (store.filter (fun q => q.1 ≠ p)) rest

/-- A file is present in the store. -/
def fileStored (store : List (String × List Nat)) (path : String) : Bool :=
  store.any (fun q => q.1 == path)

end Upload

namespace Fixture

/-- Modelled from the spec: `expenserule/categories.py` is imported by the
source but is not among the given source files.  The spec fixes the shape
(exactly 19 fixed categories, each a name with a Schedule C line), the
fallback entry `"Other Expenses"` → `"27a"`, and the existence of a
`"Meals"` category; the remaining names and lines here are a plausible
Schedule C fixture.  All claim theorems quantify over the catalog; this
fixture only instantiates them in witnesses. -/
def SCHEDULE_C_CATEGORIES : List (String × String) :=
  [("Advertising", "8"),
   ("Car and truck expenses", "9"),
   ("Commissions and fees", "10"),
   ("Contract labor", "11"),
   ("Depreciation", "13"),
   ("Employee benefit programs", "14"),
   ("Insurance", "15"),
   ("Interest", "16b"),
   ("Legal and professional services", "17"),
   ("Office expense", "18"),
   ("Rent or lease", "20b"),
   ("Repairs and maintenance", "21"),
   ("Supplies", "22"),
   ("Taxes and licenses", "23"),
   ("Travel", "24a"),
   ("Meals", "24b"),
   ("Utilities", "25"),
   ("Wages", "26"),
   ("Other Expenses", "27a")]

/-- `CATEGORY_LINE`: the category-name → Schedule C line mapping derived
from the catalog. -/
def CATEGORY_LINE : List (String × String) := SCHEDULE_C_CATEGORIES

/-- `_CATEGORY_NAMES` from `categorization.py`:
`[cat["name"] for cat in SCHEDULE_C_CATEGORIES]`. -/
def CATEGORY_NAMES : List String := SCHEDULE_C_CATEGORIES.map (·.1)

end Fixture

/-!
## Helper lemmas shared by the claim theorems
-/

namespace Categorization

theorem suggest_of_tier1Misses (env : ClassEnv) (merchant : String)
    (h : tier1Misses env merchant = true) :
    suggestCategory env merchant = tier2Resolve env merchant := by
  unfold tier1Misses at h
  unfold suggestCategory
  cases hg : getCorrection env.corrections merchant with
  | none => rfl
  | some r =>
    rw [hg] at h
    by_cases hr : r = ""
    · simp [hr]
    · simp only [if_neg hr]
      have hn : (dictFind env.categoryLine r).isNone = true := by
        rcases (Bool.or_eq_true _ _).mp h with h' | h'
        · exact absurd (by simpa using h') hr
        · exact h'
      rw [Option.isNone_iff_eq_none] at hn
      rw [hn]

theorem tier2_of_tier2Misses (env : ClassEnv) (merchant : String)
    (h : tier2Misses env merchant = true) :
    tier2Resolve env merchant = tier3Resolve env := by
  unfold tier2Misses at h
  unfold tier2Resolve
  cases hl : lookupTable env.merchantLookup merchant with
  | none => rfl
  | some c =>
    rw [hl] at h
    have : c = "" := by simpa using h
    simp [this]

theorem getCorrection_upsert (l : List (String × String)) (m c : String) :
    getCorrection (upsertCorrection l m c) m = some c := by
  unfold getCorrection upsertCorrection
  by_cases h : l.any (fun p => p.1 == pyLower m)
  · simp only [h, if_true]
    induction l with
    | nil => simp at h
    | cons p tl ih =>
      cases hb : (p.1 == pyLower m) with
      | true =>
        simp only [List.map_cons]
        rw [List.find?_cons_of_pos]
        · simp [hb]
        · simp [hb]
      | false =>
        have htl : tl.any (fun q => q.1 == pyLower m) = true := by
          rcases List.any_eq_true.mp h with ⟨x, hx, hxp⟩
          rcases List.mem_cons.mp hx with rfl | hx'
          · exact absurd hxp (by simp [hb])
          · exact List.any_eq_true.mpr ⟨x, hx', hxp⟩
        simp only [List.map_cons]
        rw [List.find?_cons_of_neg]
        · exact ih htl
        · simp [hb]
  · rw [if_neg h]
    have hnone : l.find? (fun p => p.1 == pyLower m) = none := by
      rw [List.find?_eq_none]
      intro x hx hxp
      exact h (List.any_eq_true.mpr ⟨x, hx, hxp⟩)
    simp [List.find?_append, hnone]

end Categorization

/-!
## Claim theorems: classification resolver (C1, C3, C4, C5, C9, C10)
-/

namespace Claims
open Categorization

/-- Shared concrete environment for witnesses: empty stores, the
spec-modelled catalog fixture, and a given remote outcome. -/
def testEnv (remote : Except PyErr String) : ClassEnv :=
  ⟨[], [], Fixture.CATEGORY_LINE, Fixture.CATEGORY_NAMES, remote⟩

/-- Helper shared by C1 and C5: when the remote call returns text whose
stripped form is not a category name, tier 3 yields the fallback
category. -/
theorem tier3_invalid_fallback (env : ClassEnv) (s : String)
    (hs : env.remote = .ok s)
    (hinv : env.categoryNames.contains (pyStrip s) = false) :
    tier3Resolve env =
      .ok ⟨"Other Expenses",
           (dictFind env.categoryLine "Other Expenses").getD "27a", "llm"⟩ := by
  unfold tier3Resolve llmSuggest
  rw [hs]
  have hmem : pyStrip s ∉ env.categoryNames := by simpa using hinv
  simp [if_neg hmem]

/-- Environment for C1: remote call raises a connection error. -/
def C1env : ClassEnv := testEnv (.error ⟨"APIConnectionError", "Connection error"⟩)

/-- Environment for the C1 malformed-text witness: the remote answer is a
lowercase (invalid) category name. -/
def C1envB : ClassEnv := testEnv (.ok "meals")

/-- C1, counterexample: a merchant missing both stores whose remote
classification call raises (here a connection error) makes
`suggest_category` itself raise — the source has no `try`/`except` on this
path, so the claim that "no exception is ever surfaced to the caller of a
classification request" is false. -/
theorem C1_counterexample :
    suggestCategory C1env "Joes Diner" =
      .error ⟨"APIConnectionError", "Connection error"⟩ := by rfl

/-- C1, amended: for a merchant that reaches the remote tier, *malformed
remote text* degrades to the fallback category and `suggest_category`
returns normally; but an *exception* raised by the remote call (network
failure, timeout) propagates unchanged to the caller. -/
theorem C1_remote_failure_behavior (env : ClassEnv) (merchant : String)
    (h1 : tier1Misses env merchant = true) (h2 : tier2Misses env merchant = true) :
    (∀ e, env.remote = .error e → suggestCategory env merchant = .error e)
    ∧ (∀ s, env.remote = .ok s →
        env.categoryNames.contains (pyStrip s) = false →
        suggestCategory env merchant =
          .ok ⟨"Other Expenses",
               (dictFind env.categoryLine "Other Expenses").getD "27a", "llm"⟩) := by
  rw [suggest_of_tier1Misses env merchant h1, tier2_of_tier2Misses env merchant h2]
  constructor
  · intro e he
    unfold tier3Resolve llmSuggest
    rw [he]
  · intro s hsok hinv
    exact tier3_invalid_fallback env s hsok hinv

/-- Witness for C1 (amended), at a concrete environment each way: a raised
remote error propagates; malformed remote text yields the fallback. -/
theorem C1_remote_failure_behavior_witness :
    suggestCategory C1env "Joes Diner" =
      .error ⟨"APIConnectionError", "Connection error"⟩
    ∧ suggestCategory C1envB "Joes Diner" =
        .ok ⟨"Other Expenses",
             (dictFind C1envB.categoryLine "Other Expenses").getD "27a", "llm"⟩ :=
  ⟨(C1_remote_failure_behavior C1env "Joes Diner" (by rfl) (by rfl)).1 _ rfl,
   (C1_remote_failure_behavior C1envB "Joes Diner" (by rfl) (by rfl)).2
     "meals" rfl (by decide)⟩

/-- Environment for C3: the correction store holds the lowercased key
`"starbucks"`. -/
def C3env : ClassEnv :=
  { corrections := [("starbucks", "Meals")]
    merchantLookup := []
    categoryLine := Fixture.CATEGORY_LINE
    categoryNames := Fixture.CATEGORY_NAMES
    remote := .ok "Utilities" }

/-- C3, counterexample: `get_correction` keys by `merchant.lower()`
*without trimming*, so the merchant `" starbucks"` — whose trimmed,
lowercased form `"starbucks"` is in the correction store — misses tier 1
and falls through to the remote tier, contradicting the claim that the
store is queried by the trimmed-and-lowercased key. -/
theorem C3_counterexample :
    normalizeMerchant " starbucks" = "starbucks"
    ∧ dictFind C3env.corrections "starbucks" = some "Meals"
    ∧ getCorrection C3env.corrections " starbucks" = none
    ∧ suggestCategory C3env " starbucks" = .ok ⟨"Utilities", "25", "llm"⟩ :=
  ⟨by decide, by rfl, by rfl, by rfl⟩

/-- C3, amended: the Correction Store is queried by exact match on the
*lowercased (untrimmed)* merchant; a hit whose stored category is nonempty
and still in the catalog's line table is returned with
`source = correction_memory` regardless of the lookup table, and a stored
category no longer in the table (or empty) behaves exactly like a miss,
falling through to the next tier rather than erroring. -/
theorem C3_correction_store_tier (env : ClassEnv) (merchant r : String)
    (hget : getCorrection env.corrections merchant = some r) :
    (∀ line, r ≠ "" → dictFind env.categoryLine r = some line →
        suggestCategory env merchant = .ok ⟨r, line, "correction_memory"⟩)
    ∧ ((r = "" ∨ dictFind env.categoryLine r = none) →
        suggestCategory env merchant = tier2Resolve env merchant) := by
  constructor
  · intro line hr hline
    unfold suggestCategory
    rw [hget]
    dsimp only
    rw [if_neg hr, hline]
  · intro hmiss
    apply suggest_of_tier1Misses
    unfold tier1Misses
    rw [hget]
    rcases hmiss with h | h
    · simp [h]
    · simp [h]

/-- Environment for the C3 witness fall-through: the stored category
`"Furniture"` is not in the catalog. -/
def C3envB : ClassEnv := { C3env with corrections := [("ikea", "Furniture")] }

/-- Witness for C3 (amended): a valid correction hit is returned with
`source = correction_memory`; a stale category falls through to tier 2. -/
theorem C3_correction_store_tier_witness :
    suggestCategory C3env "Starbucks" = .ok ⟨"Meals", "24b", "correction_memory"⟩
    ∧ suggestCategory C3envB "IKEA" = tier2Resolve C3envB "IKEA" :=
  ⟨(C3_correction_store_tier C3env "Starbucks" "Meals" (by rfl)).1
     "24b" (by decide) (by rfl),
   (C3_correction_store_tier C3envB "IKEA" "Furniture" (by rfl)).2
     (Or.inr (by rfl))⟩

/-- C4: with no valid correction hit, the static-catalog tier matches the
normalized merchant exactly against a lookup key, or else scans the keys
in declaration order and returns the first whose key is a substring of the
normalized merchant (so among multiple substring matches the
earliest-declared key wins); both paths return `source = "lookup"` with
the catalog line of the matched category. -/
theorem C4_lookup_two_pass (env : ClassEnv) (merchant c line : String)
    (h1 : tier1Misses env merchant = true)
    (hc : c ≠ "") (hline : dictFind env.categoryLine c = some line) :
    (dictFind env.merchantLookup (normalizeMerchant merchant) = some c →
        suggestCategory env merchant = .ok ⟨c, line, "lookup"⟩)
    ∧ (∀ pre post k,
        dictFind env.merchantLookup (normalizeMerchant merchant) = none →
        env.merchantLookup = pre ++ (k, c) :: post →
        (∀ p ∈ pre, strContains (normalizeMerchant merchant) p.1 = false) →
        strContains (normalizeMerchant merchant) k = true →
        suggestCategory env merchant = .ok ⟨c, line, "lookup"⟩) := by
  rw [suggest_of_tier1Misses env merchant h1]
  constructor
  · intro hx
    simp only [tier2Resolve, lookupTable]
    rw [hx]
    dsimp only
    rw [if_neg hc, hline]
  · intro pre post k hnone hdecomp hpre hk
    simp only [tier2Resolve, lookupTable]
    rw [hnone]
    dsimp only
    rw [hdecomp, List.find?_append]
    have hpre' : pre.find?
        (fun p => strContains (normalizeMerchant merchant) p.1) = none := by
      rw [List.find?_eq_none]
      intro x hx
      simp [hpre x hx]
    rw [hpre', List.find?_cons_of_pos _ (by simpa using hk)]
    dsimp only [Option.none_or, Option.map]
    rw [if_neg hc, hline]

/-- Environment for the C4 exact-match witness. -/
def C4envA : ClassEnv :=
  { corrections := []
    merchantLookup := [("starbucks", "Utilities")]
    categoryLine := Fixture.CATEGORY_LINE
    categoryNames := Fixture.CATEGORY_NAMES
    remote := .ok "Advertising" }

/-- Environment for the C4 substring tie-break witness: both `"star"` and
`"starbucks"` are substrings of the normalized merchant; `"star"` is
declared first. -/
def C4envB : ClassEnv := { C4envA with
  merchantLookup := [("star", "Meals"), ("starbucks", "Utilities")] }

/-- Witness for C4: an exact-key hit, and the earliest-declared substring
key winning over a later one that also matches. -/
theorem C4_lookup_two_pass_witness :
    suggestCategory C4envA " STARBUCKS " = .ok ⟨"Utilities", "25", "lookup"⟩
    ∧ suggestCategory C4envB "Starbucks Coffee" = .ok ⟨"Meals", "24b", "lookup"⟩ :=
  ⟨(C4_lookup_two_pass C4envA " STARBUCKS " "Utilities" "25"
      (by rfl) (by decide) (by rfl)).1 (by rfl),
   (C4_lookup_two_pass C4envB "Starbucks Coffee" "Meals" "24b"
      (by rfl) (by decide) (by rfl)).2
     [] [("starbucks", "Utilities")] "star" (by rfl) (by rfl)
     (by intro p hp; exact absurd hp (List.not_mem_nil p)) (by decide)⟩

/-- C5: for a merchant matching neither store, the remote tier's text is
validated by exact whitespace-stripped membership in the closed category
name list — no fuzzy matching, no case folding — and an invalid answer
yields the fallback `"Other Expenses"` / `"27a"` with the remote tier's
source tag (`"llm"`, the spec's `remote`). -/
theorem C5_remote_validated_or_fallback (env : ClassEnv) (merchant s : String)
    (h1 : tier1Misses env merchant = true)
    (h2 : tier2Misses env merchant = true)
    (hs : env.remote = .ok s)
    (hinv : env.categoryNames.contains (pyStrip s) = false)
    (hOE : ∀ l, dictFind env.categoryLine "Other Expenses" = some l → l = "27a") :
    suggestCategory env merchant = .ok ⟨"Other Expenses", "27a", "llm"⟩ := by
  rw [suggest_of_tier1Misses env merchant h1, tier2_of_tier2Misses env merchant h2,
    tier3_invalid_fallback env s hs hinv]
  cases hd : dictFind env.categoryLine "Other Expenses" with
  | none => rfl
  | some l => rw [hOE l hd]; rfl

/-- Environment for the C5 witness: the remote answer has a case mismatch,
extra punctuation and whitespace, so it is not an exact category name. -/
def C5env : ClassEnv := testEnv (.ok " other expenses. ")

/-- Witness for C5 at the 19-entry catalog fixture. -/
theorem C5_remote_validated_or_fallback_witness :
    suggestCategory C5env "Quantum Plumbing LLC" =
      .ok ⟨"Other Expenses", "27a", "llm"⟩ :=
  C5_remote_validated_or_fallback C5env "Quantum Plumbing LLC" " other expenses. "
    (by rfl) (by rfl) (by rfl) (by decide)
    (by intro l hl; exact (Option.some.inj hl).symm)

/-- C9: upserting a correction `(m, c)` for a catalog category `c` and
then resolving `m` returns `c` with the correction tier's source tag. -/
theorem C9_round_trip (env : ClassEnv) (m c line : String)
    (hc : c ≠ "") (hline : dictFind env.categoryLine c = some line) :
    suggestCategory
        { env with corrections := upsertCorrection env.corrections m c } m
      = .ok ⟨c, line, "correction_memory"⟩ := by
  unfold suggestCategory
  have h1 : getCorrection
      ({ env with corrections := upsertCorrection env.corrections m c }).corrections m
      = some c := getCorrection_upsert _ _ _
  rw [h1]
  simp [hc, hline]

/-- Witness for C9 at a concrete merchant and catalog category. -/
theorem C9_round_trip_witness :
    ("Meals" : String) ≠ ""
    ∧ dictFind (testEnv (.ok "x")).categoryLine "Meals" = some "24b"
    ∧ suggestCategory
        { testEnv (.ok "x") with
            corrections :=
              upsertCorrection (testEnv (.ok "x")).corrections "Uber Eats" "Meals" }
        "Uber Eats" = .ok ⟨"Meals", "24b", "correction_memory"⟩ :=
  ⟨by decide, by rfl,
   C9_round_trip (testEnv (.ok "x")) "Uber Eats" "Meals" "24b" (by decide) (by rfl)⟩

/-- C10: every result `suggest_category` returns carries a line consistent
with its category — when the category is a key of `CATEGORY_LINE` the
returned line is that mapping's value (all three tiers), and the literal
`"27a"` appears only when the category is absent from the mapping. -/
theorem C10_line_consistent (env : ClassEnv) (merchant : String)
    (res : CatResult) (h : suggestCategory env merchant = .ok res) :
    (∀ line, dictFind env.categoryLine res.category = some line →
        res.schedule_c_line = line)
    ∧ (dictFind env.categoryLine res.category = none →
        res.schedule_c_line = "27a") := by
  have tier3case : ∀ r : CatResult, tier3Resolve env = .ok r →
      (∀ line, dictFind env.categoryLine r.category = some line →
          r.schedule_c_line = line)
      ∧ (dictFind env.categoryLine r.category = none →
          r.schedule_c_line = "27a") := by
    intro r hr
    unfold tier3Resolve at hr
    cases hl : llmSuggest env.categoryNames env.remote with
    | error e => rw [hl] at hr; cases hr
    | ok c =>
      rw [hl] at hr
      injection hr with hr
      subst hr
      constructor
      · intro line hline; simp [hline]
      · intro hnone; simp [hnone]
  have tier2case : ∀ r : CatResult, tier2Resolve env merchant = .ok r →
      (∀ line, dictFind env.categoryLine r.category = some line →
          r.schedule_c_line = line)
      ∧ (dictFind env.categoryLine r.category = none →
          r.schedule_c_line = "27a") := by
    intro r hr
    unfold tier2Resolve at hr
    cases hl : lookupTable env.merchantLookup merchant with
    | none => rw [hl] at hr; exact tier3case r hr
    | some c =>
      rw [hl] at hr
      dsimp only at hr
      by_cases hc : c = ""
      · rw [if_pos hc] at hr; exact tier3case r hr
      · rw [if_neg hc] at hr
        cases hd : dictFind env.categoryLine c with
        | none => rw [hd] at hr; cases hr
        | some line =>
          rw [hd] at hr
          injection hr with hr
          subst hr
          constructor
          · intro line' hline'
            rw [show (CatResult.mk c line "lookup").category = c from rfl] at hline'
            rw [hd] at hline'
            exact Option.some.inj hline'
          · intro hnone
            rw [show (CatResult.mk c line "lookup").category = c from rfl] at hnone
            rw [hd] at hnone; cases hnone
  unfold suggestCategory at h
  cases hg : getCorrection env.corrections merchant with
  | none => rw [hg] at h; exact tier2case res h
  | some r =>
    rw [hg] at h
    dsimp only at h
    by_cases hr : r = ""
    · rw [if_pos hr] at h; exact tier2case res h
    · rw [if_neg hr] at h
      cases hd : dictFind env.categoryLine r with
      | none => rw [hd] at h; exact tier2case res h
      | some line =>
        rw [hd] at h
        injection h with h
        subst h
        constructor
        · intro line' hline'
          rw [show (CatResult.mk r line "correction_memory").category = r
                from rfl] at hline'
          rw [hd] at hline'
          exact Option.some.inj hline'
        · intro hnone
          rw [show (CatResult.mk r line "correction_memory").category = r
                from rfl] at hnone
          rw [hd] at hnone; cases hnone

/-- Witness for C10: a tier-3 result whose category is in the mapping
indeed carries the mapped line. -/
theorem C10_line_consistent_witness :
    suggestCategory (testEnv (.ok "no such category")) "Acme" =
      .ok ⟨"Other Expenses", "27a", "llm"⟩
    ∧ ("27a" : String) = "27a" :=
  ⟨by rfl,
   (C10_line_consistent (testEnv (.ok "no such category")) "Acme"
      ⟨"Other Expenses", "27a", "llm"⟩ (by rfl)).1 "27a" (by rfl)⟩

end Claims

/-!
## Claim theorems: image normalization (C7, C8), extraction (C6),
## upload preservation (C2)
-/

namespace Claims
open Llm

/-- `a < (a / L + 1) * L` for positive `L` (standard division bound used
by the resize analysis). -/
theorem lt_div_add_one_mul (a L : Nat) (hL : 0 < L) : a < (a / L + 1) * L := by
  have hmod : a % L < L := Nat.mod_lt _ hL
  have hdm : L * (a / L) + a % L = a := Nat.div_add_mod a L
  have : (a / L + 1) * L = L * (a / L) + L := by ring
  omega

/-- Cross-product bound for the floor-scaled dimensions: scaling both
sides by `D / L` with floors perturbs the aspect ratio by less than one
source pixel. -/
theorem scaled_cross_lt (W H L D : Nat) (hL : 0 < L) (hW : 0 < W) :
    (W * D / L) * H < (H * D / L) * W + W := by
  have h1 : (W * D / L) * H * L ≤ W * D * H := by
    calc (W * D / L) * H * L = (W * D / L) * L * H := by ring
    _ ≤ (W * D) * H := Nat.mul_le_mul_right H (Nat.div_mul_le_self _ _)
  have h2 : H * D < (H * D / L + 1) * L := lt_div_add_one_mul _ _ hL
  have h3 : W * D * H < ((H * D / L + 1) * L) * W := by
    have := (Nat.mul_lt_mul_right hW).mpr h2
    calc W * D * H = (H * D) * W := by ring
    _ < ((H * D / L + 1) * L) * W := this
  have h4 : (W * D / L) * H * L < ((H * D / L) * W + W) * L := by
    calc (W * D / L) * H * L ≤ W * D * H := h1
    _ < ((H * D / L + 1) * L) * W := h3
    _ = ((H * D / L) * W + W) * L := by ring
  exact Nat.lt_of_mul_lt_mul_right h4

/-- C8: for a decoded image (with its EXIF orientation applied, dims
`w × h`, both positive) whose longest side exceeds 2048, `_preprocess_image`
downscales so the output's longest side equals 2048 exactly and the aspect
ratio is preserved within floor-rounding tolerance (the cross products of
the old and new dimensions differ by less than one source pixel row or
column); an image whose longest side does not exceed 2048 keeps its
dimensions.  The Python float product-and-truncate
`int(w * (2048 / longest))` is modelled by exact `w * 2048 / longest`. -/
theorem C8_resize_bounds (img : Img) (w h : Nat)
    (hw : (applyExifOrientation img).width = w)
    (hh : (applyExifOrientation img).height = h)
    (hwpos : 0 < w) (hhpos : 0 < h) :
    (MAX_IMAGE_DIM < max w h →
        max (preprocessImage img).width (preprocessImage img).height
          = MAX_IMAGE_DIM
        ∧ (preprocessImage img).width * h < (preprocessImage img).height * w + w
        ∧ (preprocessImage img).height * w < (preprocessImage img).width * h + h)
    ∧ (max w h ≤ MAX_IMAGE_DIM →
        (preprocessImage img).width = w ∧ (preprocessImage img).height = h) := by
  have hL : 0 < max w h := lt_of_lt_of_le hwpos (le_max_left _ _)
  constructor
  · intro hbig
    have hpre : preprocessImage img =
        ⟨w * MAX_IMAGE_DIM / max w h, h * MAX_IMAGE_DIM / max w h,
          (applyExifOrientation img).exifSwap, "RGB"⟩ := by
      simp only [preprocessImage, hw, hh]
      rw [if_pos hbig]
    rw [hpre]
    refine ⟨?_, ?_, ?_⟩
    · show max (w * MAX_IMAGE_DIM / max w h) (h * MAX_IMAGE_DIM / max w h)
          = MAX_IMAGE_DIM
      rcases Nat.le_total w h with hle | hle
      · have hmax : max w h = h := Nat.max_eq_right hle
        rw [hmax]
        have hhd : h * MAX_IMAGE_DIM / h = MAX_IMAGE_DIM := by
          rw [Nat.mul_comm]
          exact Nat.mul_div_cancel _ (by omega)
        have hwd : w * MAX_IMAGE_DIM / h ≤ MAX_IMAGE_DIM := by
          calc w * MAX_IMAGE_DIM / h ≤ h * MAX_IMAGE_DIM / h :=
                Nat.div_le_div_right (Nat.mul_le_mul_right _ hle)
          _ = MAX_IMAGE_DIM := hhd
        rw [hhd]
        exact Nat.max_eq_right hwd
      · have hmax : max w h = w := Nat.max_eq_left hle
        rw [hmax]
        have hwd : w * MAX_IMAGE_DIM / w = MAX_IMAGE_DIM := by
          rw [Nat.mul_comm]
          exact Nat.mul_div_cancel _ (by omega)
        have hhd : h * MAX_IMAGE_DIM / w ≤ MAX_IMAGE_DIM := by
          calc h * MAX_IMAGE_DIM / w ≤ w * MAX_IMAGE_DIM / w :=
                Nat.div_le_div_right (Nat.mul_le_mul_right _ hle)
          _ = MAX_IMAGE_DIM := hwd
        rw [hwd]
        exact Nat.max_eq_left hhd
    · exact scaled_cross_lt w h (max w h) MAX_IMAGE_DIM hL hwpos
    · have := scaled_cross_lt h w (max w h) MAX_IMAGE_DIM hL hhpos
      simpa [Nat.max_comm w h] using this
  · intro hsmall
    have hpre : preprocessImage img =
        ⟨w, h, (applyExifOrientation img).exifSwap, "RGB"⟩ := by
      simp only [preprocessImage, hw, hh]
      rw [if_neg (by omega)]
    rw [hpre]
    exact ⟨rfl, rfl⟩

/-- Witness for C8: a 4096×1024 image downscales to longest side 2048; a
900×1200 image with an orientation swap keeps its (oriented) 1200×900
dimensions. -/
theorem C8_resize_bounds_witness :
    max (preprocessImage ⟨4096, 1024, false, "RGBA"⟩).width
        (preprocessImage ⟨4096, 1024, false, "RGBA"⟩).height = MAX_IMAGE_DIM
    ∧ (preprocessImage ⟨900, 1200, true, "L"⟩).width = 1200
    ∧ (preprocessImage ⟨900, 1200, true, "L"⟩).height = 900 := by
  refine ⟨(C8_resize_bounds ⟨4096, 1024, false, "RGBA"⟩ 4096 1024
      rfl rfl (by decide) (by decide)).1 (by decide) |>.1, ?_, ?_⟩
  · exact ((C8_resize_bounds ⟨900, 1200, true, "L"⟩ 1200 900
      rfl rfl (by decide) (by decide)).2 (by decide)).1
  · exact ((C8_resize_bounds ⟨900, 1200, true, "L"⟩ 1200 900
      rfl rfl (by decide) (by decide)).2 (by decide)).2

/-- C7, counterexample: normalization failures are NOT a single typed
`ConversionError` — a zero-page PDF raises a `ValueError` while corrupt
image data propagates the decoder's own exception class
(`UnidentifiedImageError`); no `ConversionError` class exists anywhere in
the source. -/
theorem C7_counterexample :
    preprocessFile "application/pdf" (.ok []) (.ok ⟨1, 1, false, "RGB"⟩)
      = .error ⟨"ValueError", "PDF produced no pages"⟩
    ∧ preprocessFile "image/png" (.ok [])
        (.error ⟨"UnidentifiedImageError", "cannot identify image file"⟩)
      = .error ⟨"UnidentifiedImageError", "cannot identify image file"⟩
    ∧ ("ValueError" : String) ≠ "ConversionError"
    ∧ ("UnidentifiedImageError" : String) ≠ "ValueError" :=
  ⟨rfl, rfl, by decide, by decide⟩

/-- C7, amended: every normalization failure surfaces as a raised
exception carrying the underlying cause, and nothing but a failure does:
`preprocess_file` fails exactly when (for a PDF) rasterization raises or
yields zero pages — the latter as `ValueError("PDF produced no pages")` —
or (otherwise) decoding raises, the underlying exception propagating
unchanged; on failure no output bytes are produced.  The failures are
heterogeneous built-in exception types, not one `ConversionError`. -/
theorem C7_failure_characterization (contentType : String)
    (pdfPages : Except PyErr (List Img)) (imageOpen : Except PyErr Img)
    (e : PyErr) :
    preprocessFile contentType pdfPages imageOpen = .error e ↔
      (contentType = "application/pdf" ∧
        (pdfPages = .error e ∨
          (pdfPages = .ok [] ∧ e = ⟨"ValueError", "PDF produced no pages"⟩)))
      ∨ (contentType ≠ "application/pdf" ∧ imageOpen = .error e) := by
  unfold preprocessFile
  by_cases hct : contentType = "application/pdf"
  · rw [if_pos hct]
    cases pdfPages with
    | error e2 => simp [hct]
    | ok pages =>
      cases pages with
      | nil =>
        simp [hct]
        constructor
        · intro hh; exact hh.symm
        · intro hh; exact hh.symm
      | cons p rest => simp [hct]
  · rw [if_neg hct]
    cases imageOpen with
    | error e2 => simp [hct]
    | ok img => simp [hct]

/-- Witness for C7 (amended), instantiating the characterization at a
zero-page PDF. -/
theorem C7_failure_characterization_witness :
    preprocessFile "application/pdf" (.ok []) (.ok ⟨2, 2, false, "RGB"⟩)
      = .error ⟨"ValueError", "PDF produced no pages"⟩ :=
  (C7_failure_characterization "application/pdf" (.ok []) (.ok ⟨2, 2, false, "RGB"⟩)
      ⟨"ValueError", "PDF produced no pages"⟩).mpr
    (Or.inl ⟨rfl, Or.inr ⟨rfl, rfl⟩⟩)

/-- C6, counterexample: a valid JSON object missing all three required
keys (`merchant`, `date`, `amount`) does NOT make `parse_receipt` raise —
it returns normally with an empty merchant and absent date/amount,
contradicting the claim that a missing required key is a hard failure. -/
theorem C6_counterexample :
    jsonGet [] "merchant" = none
    ∧ jsonGet [] "date" = none
    ∧ jsonGet [] "amount" = none
    ∧ parseReceiptFromJson (some (Json.obj [])) = .ok ⟨"", none, none⟩ :=
  ⟨rfl, rfl, rfl, rfl⟩

/-- C6, amended: `parse_receipt` fails hard exactly when the response is
not valid JSON (or not an object) or when `amount` is present, non-null
and not coercible to a number; a missing key never raises.  When it
returns, `merchant` is the trimmed string coercion (absent or null →
empty string, a nonempty string value passes through stripped), and null
or absent `date`/`amount` pass through as absent — in particular a
non-numeric amount errors rather than being coerced to zero. -/
theorem C6_parse_characterization (fields : List (String × Json)) :
    parseReceiptFromJson none = .error ⟨"JSONDecodeError", "Expecting value"⟩
    ∧ ((∃ e, parseReceiptFromJson (some (Json.obj fields)) = .error e) ↔
        (∃ v, jsonGet fields "amount" = some v ∧ v.isNull = false ∧
          ∃ e, pyFloat v = .error e))
    ∧ (∀ m d a,
        parseReceiptFromJson (some (Json.obj fields)) = .ok ⟨m, d, a⟩ →
        m = merchantField fields ∧ d = dateField fields
        ∧ ((jsonGet fields "amount" = none ∨
            jsonGet fields "amount" = some Json.null) → a = none))
    ∧ ((jsonGet fields "merchant" = none ∨
        jsonGet fields "merchant" = some Json.null) →
        merchantField fields = "")
    ∧ (∀ s, s ≠ "" → jsonGet fields "merchant" = some (Json.str s) →
        merchantField fields = pyStrip s)
    ∧ ((jsonGet fields "date" = none ∨ jsonGet fields "date" = some Json.null) →
        dateField fields = none) := by
  refine ⟨rfl, ?_, ?_, ?_, ?_, ?_⟩
  · cases ha : jsonGet fields "amount" with
    | none => simp [parseReceiptFromJson, ha]
    | some v =>
      cases v with
      | null => simp [parseReceiptFromJson, ha, Json.isNull]
      | bool b => cases hf : pyFloat (Json.bool b) <;>
          simp [parseReceiptFromJson, ha, hf, Json.isNull]
      | num q => cases hf : pyFloat (Json.num q) <;>
          simp [parseReceiptFromJson, ha, hf, Json.isNull]
      | str s => cases hf : pyFloat (Json.str s) <;>
          simp [parseReceiptFromJson, ha, hf, Json.isNull]
      | arr xs => cases hf : pyFloat (Json.arr xs) <;>
          simp [parseReceiptFromJson, ha, hf, Json.isNull]
      | obj fs => cases hf : pyFloat (Json.obj fs) <;>
          simp [parseReceiptFromJson, ha, hf, Json.isNull]
  · intro m d a h
    cases ha : jsonGet fields "amount" with
    | none =>
      simp only [parseReceiptFromJson, ha] at h
      injection h with h
      refine ⟨?_, ?_, fun _ => ?_⟩ <;>
        first
        | exact (congrArg ReceiptFields.merchant h).symm
        | exact (congrArg ReceiptFields.date h).symm
        | exact (congrArg ReceiptFields.amount h).symm
    | some v =>
      cases v with
      | null =>
        simp only [parseReceiptFromJson, ha] at h
        injection h with h
        refine ⟨?_, ?_, fun _ => ?_⟩ <;>
          first
          | exact (congrArg ReceiptFields.merchant h).symm
          | exact (congrArg ReceiptFields.date h).symm
          | exact (congrArg ReceiptFields.amount h).symm
      | bool b =>
        simp only [parseReceiptFromJson, ha] at h
        cases hf : pyFloat (Json.bool b) with
        | ok q =>
          rw [hf] at h
          injection h with h
          refine ⟨(congrArg ReceiptFields.merchant h).symm,
                  (congrArg ReceiptFields.date h).symm, ?_⟩
          rintro (hn | hn) <;> simp [hn] at ha <;> simp at hn
        | error e => rw [hf] at h; cases h
      | num q0 =>
        simp only [parseReceiptFromJson, ha] at h
        cases hf : pyFloat (Json.num q0) with
        | ok q =>
          rw [hf] at h
          injection h with h
          refine ⟨(congrArg ReceiptFields.merchant h).symm,
                  (congrArg ReceiptFields.date h).symm, ?_⟩
          rintro (hn | hn) <;> simp [hn] at ha <;> simp at hn
        | error e => rw [hf] at h; cases h
      | str s =>
        simp only [parseReceiptFromJson, ha] at h
        cases hf : pyFloat (Json.str s) with
        | ok q =>
          rw [hf] at h
          injection h with h
          refine ⟨(congrArg ReceiptFields.merchant h).symm,
                  (congrArg ReceiptFields.date h).symm, ?_⟩
          rintro (hn | hn) <;> simp [hn] at ha <;> simp at hn
        | error e => rw [hf] at h; cases h
      | arr xs =>
        simp only [parseReceiptFromJson, ha] at h
        cases hf : pyFloat (Json.arr xs) with
        | ok q =>
          rw [hf] at h
          injection h with h
          refine ⟨(congrArg ReceiptFields.merchant h).symm,
                  (congrArg ReceiptFields.date h).symm, ?_⟩
          rintro (hn | hn) <;> simp [hn] at ha <;> simp at hn
        | error e => rw [hf] at h; cases h
      | obj fs =>
        simp only [parseReceiptFromJson, ha] at h
        cases hf : pyFloat (Json.obj fs) with
        | ok q =>
          rw [hf] at h
          injection h with h
          refine ⟨(congrArg ReceiptFields.merchant h).symm,
                  (congrArg ReceiptFields.date h).symm, ?_⟩
          rintro (hn | hn) <;> simp [hn] at ha <;> simp at hn
        | error e => rw [hf] at h; cases h
  · rintro (hm | hm) <;> simp [merchantField, hm, truthy, pyStr, pyStrip, trimLeadChars]
  · intro s hs hm
    have ht : truthy (Json.str s) = true := by simp [truthy, hs]
    simp [merchantField, hm, ht, pyStr]
  · rintro (hd | hd) <;> simp [dateField, hd, truthy]

/-- Witness for C6 (amended): a response with a string merchant, null
date and null amount parses to the stripped merchant and absent fields; a
present non-numeric amount produces a raised error. -/
theorem C6_parse_characterization_witness :
    merchantField [("merchant", Json.str " Acme ")] = pyStrip " Acme "
    ∧ dateField [("date", Json.null)] = none
    ∧ (∃ e, parseReceiptFromJson
        (some (Json.obj [("amount", Json.str "abc")])) = .error e) :=
  ⟨(C6_parse_characterization [("merchant", Json.str " Acme ")]).2.2.2.2.1
     " Acme " (by decide) rfl,
   (C6_parse_characterization [("date", Json.null)]).2.2.2.2.2 (Or.inr rfl),
   ((C6_parse_characterization [("amount", Json.str "abc")]).2.1).mpr
     ⟨Json.str "abc", rfl, rfl,
      ⟨⟨"ValueError", "could not convert string to float"⟩, rfl⟩⟩⟩

end Claims

namespace Claims
open Upload

/-- A path filtered out of a file store is not stored. -/
theorem fileStored_filter (store : List (String × List Nat)) (p : String) :
    fileStored (store.filter (fun q => q.1 ≠ p)) p = false := by
  rw [Bool.eq_false_iff]
  intro hany
  unfold fileStored at hany
  rcases List.any_eq_true.mp hany with ⟨x, hx, hxp⟩
  rcases List.mem_filter.mp hx with ⟨_, hne⟩
  have h1 : x.1 ≠ p := by simpa using hne
  have h2 : x.1 = p := by simpa using hxp
  exact h1 h2

/-- Classification environment for the C2 fixtures. -/
def C2env : Categorization.ClassEnv := testEnv (.ok "Advertising")

/-- C2, counterexample: when normalization fails, `parse_upload` runs
`stored_path.unlink(missing_ok=True)` — the trace is write, attempt,
unlink, and replaying it over a store leaves the original file ABSENT,
contradicting the claim that a failed normalization does not delete the
stored copy. -/
theorem C2_counterexample :
    (parseUpload "image/png" [7, 7] "u0"
        (.error ⟨"UnidentifiedImageError", "cannot identify image file"⟩)
        (.error ⟨"unused", ""⟩) C2env).1
      = [.writeFile "u0.png" [7, 7], .preprocessAttempt, .unlinkFile "u0.png"]
    ∧ fileStored
        (applyFsEvents [("u0.png", [7, 7])]
          (parseUpload "image/png" [7, 7] "u0"
            (.error ⟨"UnidentifiedImageError", "cannot identify image file"⟩)
            (.error ⟨"unused", ""⟩) C2env).1) "u0.png" = false :=
  ⟨rfl, by decide⟩

/-- C2, amended: for every accepted upload (allowed content type, size
within bound) the original bytes are written to stable storage *before*
normalization is attempted — the trace always begins with the write
followed by the preprocess attempt — but a normalization failure then
DELETES that stored copy: the failing trace ends with an unlink of the
same path, the file is absent from the resulting store, and HTTP 422 is
returned.  Only the preservation-on-failure half of the claim fails. -/
theorem C2_write_first_but_deleted_on_failure (contentType : String)
    (raw : List Nat) (uploadId : String) (e : PyErr)
    (extract : Except PyErr Llm.ReceiptFields) (env : Categorization.ClassEnv)
    (store : List (String × List Nat))
    (hct : contentType = "image/jpeg" ∨ contentType = "image/png" ∨
      contentType = "application/pdf")
    (hsize : raw.length ≤ 20 * 1024 * 1024) :
    ∃ path,
      (∀ pre, (parseUpload contentType raw uploadId pre extract env).1.take 2
          = [.writeFile path raw, .preprocessAttempt])
      ∧ (parseUpload contentType raw uploadId (.error e) extract env).1
          = [.writeFile path raw, .preprocessAttempt, .unlinkFile path]
      ∧ fileStored
          (applyFsEvents store
            (parseUpload contentType raw uploadId (.error e) extract env).1)
          path = false
      ∧ (parseUpload contentType raw uploadId (.error e) extract env).2
          = .error (.http 422) := by
  have hsize2 : ¬ (20 * 1024 * 1024 < raw.length) := by omega
  have hcond : ¬ (contentType ≠ "image/jpeg" ∧ contentType ≠ "image/png" ∧
      contentType ≠ "application/pdf") := by
    rintro ⟨h1, h2, h3⟩
    rcases hct with h | h | h
    · exact h1 h
    · exact h2 h
    · exact h3 h
  refine ⟨uploadId ++ extFor contentType, ?_, ?_, ?_, ?_⟩
  · intro pre
    unfold parseUpload
    rw [if_neg hcond, if_neg hsize2]
    cases pre with
    | error e2 => rfl
    | ok bs =>
      cases extract with
      | error e2 => rfl
      | ok fields =>
        dsimp only
        cases Categorization.suggestCategory env fields.merchant <;> rfl
  · unfold parseUpload
    rw [if_neg hcond, if_neg hsize2]
  · unfold parseUpload
    rw [if_neg hcond, if_neg hsize2]
    dsimp only
    show fileStored (applyFsEvents store
      [.writeFile (uploadId ++ extFor contentType) raw, .preprocessAttempt,
        .unlinkFile (uploadId ++ extFor contentType)])
      (uploadId ++ extFor contentType) = false
    simp only [applyFsEvents]
    exact fileStored_filter _ _
  · unfold parseUpload
    rw [if_neg hcond, if_neg hsize2]

/-- Witness for C2 (amended) at a concrete PNG upload whose normalization
fails. -/
theorem C2_write_first_but_deleted_on_failure_witness :
    ∃ path,
      (∀ pre, (parseUpload "image/png" [7, 7] "u0" pre
          (.error ⟨"unused", ""⟩) C2env).1.take 2
          = [.writeFile path [7, 7], .preprocessAttempt])
      ∧ (parseUpload "image/png" [7, 7] "u0"
            (.error ⟨"x", "y"⟩) (.error ⟨"unused", ""⟩) C2env).1
          = [.writeFile path [7, 7], .preprocessAttempt, .unlinkFile path]
      ∧ fileStored
          (applyFsEvents []
            (parseUpload "image/png" [7, 7] "u0"
              (.error ⟨"x", "y"⟩) (.error ⟨"unused", ""⟩) C2env).1) path = false
      ∧ (parseUpload "image/png" [7, 7] "u0"
            (.error ⟨"x", "y"⟩) (.error ⟨"unused", ""⟩) C2env).2
          = .error (.http 422) :=
  C2_write_first_but_deleted_on_failure "image/png" [7, 7] "u0" ⟨"x", "y"⟩
    (.error ⟨"unused", ""⟩) C2env [] (Or.inr (Or.inl rfl)) (by decide)

end Claims
